import Mathlib

/-!
Verification of the Goal Allocation & Pacing Engine of the treeline-goals
plugin.  The definitions below are a shallow embedding of the pure
computation in src/GoalsView.svelte: currency amounts and timestamps are
modelled as rationals (timestamps measured in days, so that the division
by one day in the source becomes the identity), JavaScript Map lookup
followed by the or-operator is modelled with an explicit falsy test, and
the one division that can hit a zero denominator (inside isOnTrack) is
carried out in a four-point IEEE-style number type so that NaN and the
infinities are represented faithfully.
-/

namespace TreelineGoals

/-- Account record as loaded by loadAccounts: identifier, display name,
balance and optional type tag. -/
structure Account where
  account_id : String
  name : String
  balance : ℚ
  account_type : Option String
deriving Repr, DecidableEq

/-- The allocation_type field of an AccountAllocation: the string field
of the source acts as a two-way tagged union. -/
inductive AllocationType where
  | percentage : AllocationType
  | fixed : AllocationType
deriving Repr, DecidableEq

/-- AccountAllocation from types: a claim of a goal on one account. -/
structure AccountAllocation where
  account_id : String
  allocation_type : AllocationType
  allocation_value : ℚ
deriving Repr, DecidableEq

/-- Goal record from types.  target_date, completed_at, created_at and
updated_at are timestamps in days; target_date and completed_at are
nullable, as in the source. -/
structure Goal where
  id : String
  name : String
  target_amount : ℚ
  target_date : Option ℚ
  allocations : Option (List AccountAllocation)
  starting_balance : ℚ
  icon : String
  color : String
  active : Bool
  completed : Bool
  completed_at : Option ℚ
  created_at : ℚ
  updated_at : ℚ
deriving Repr, DecidableEq

/-- accounts.find((a) => a.account_id === alloc.account_id). -/
def accountFind (accounts : List Account) (aid : String) : Option Account :=
  accounts.find? (fun a => a.account_id == aid)

/-- Body of the inner loop of calculateBalances: one step of the running
total over one allocation rule.  A rule whose account is missing leaves
the total unchanged. -/
def allocStep (accounts : List Account) (total : ℚ)
    (alloc : AccountAllocation) : ℚ :=
  match accountFind accounts alloc.account_id with
  | some account =>
    match alloc.allocation_type with
    | AllocationType.percentage =>
        total + account.balance * alloc.allocation_value / 100
    | AllocationType.fixed =>
        total + min alloc.allocation_value account.balance
  | none => total

/-- Per-goal body of calculateBalances (the Allocation Resolver of the
spec): with a non-empty allocation list the contributions are summed,
otherwise the starting balance is returned. -/
def resolveCurrentAmount (goal : Goal) (accounts : List Account) : ℚ :=
  match goal.allocations with
  | some allocs =>
    if 0 < allocs.length then allocs.foldl (allocStep accounts) 0
    else goal.starting_balance
  | none => goal.starting_balance

/-- calculateBalances: the map from goal id to resolved current amount,
built by one pass over the goals. -/
def calculateBalances (goals : List Goal) (accounts : List Account) :
    List (String × ℚ) :=
  goals.map (fun g => (g.id, resolveCurrentAmount g accounts))

/-- Contribution of a single allocation rule, as summed by the resolver:
zero when the referenced account is absent from the snapshot. -/
def allocContribution (accounts : List Account)
    (alloc : AccountAllocation) : ℚ :=
  match accountFind accounts alloc.account_id with
  | some account =>
    match alloc.allocation_type with
    | AllocationType.percentage =>
        account.balance * alloc.allocation_value / 100
    | AllocationType.fixed => min alloc.allocation_value account.balance
  | none => 0

/-- goalBalances.get(id): Map lookup, none when the key is absent. -/
def mapGet (balances : List (String × ℚ)) (k : String) : Option ℚ :=
  (balances.find? (fun p => p.1 == k)).map Prod.snd

/-- The JavaScript or-operator applied to an optional number and a
default: an absent or zero value (the only falsy rational) yields the
default. -/
def jsOr (v : Option ℚ) (d : ℚ) : ℚ :=
  match v with
  | some x => if x = 0 then d else x
  | none => d

/-- getProgress: normalized progress of a goal, clamped to zero and one
hundred, and one hundred outright when the needed amount is nonpositive. -/
def getProgress (balances : List (String × ℚ)) (goal : Goal) : ℚ :=
  let current := jsOr (mapGet balances goal.id) 0
  let saved := current - goal.starting_balance
  let needed := goal.target_amount - goal.starting_balance
  if needed ≤ 0 then 100
  else min 100 (max 0 (saved / needed * 100))

/-- getCurrentAmount: balance lookup falling back to the starting
balance through the or-operator, hence also on a stored zero. -/
def getCurrentAmount (balances : List (String × ℚ)) (goal : Goal) : ℚ :=
  jsOr (mapGet balances goal.id) goal.starting_balance

/-- getRemainingAmount: amount still to be saved, floored at zero. -/
def getRemainingAmount (balances : List (String × ℚ)) (goal : Goal) : ℚ :=
  max 0 (goal.target_amount - getCurrentAmount balances goal)

/-- getDaysRemaining: ceiling of the signed distance from today to the
target date, null without a target date. -/
def getDaysRemaining (goal : Goal) (today : ℚ) : Option ℤ :=
  match goal.target_date with
  | some td => some ⌈td - today⌉
  | none => none

/-- getMonthlyNeeded: required monthly contribution under a thirty-day
month, null when no positive number of days remains. -/
def getMonthlyNeeded (balances : List (String × ℚ)) (goal : Goal)
    (today : ℚ) : Option ℚ :=
  match getDaysRemaining goal today with
  | none => none
  | some days =>
    if days ≤ 0 then none
    else some (getRemainingAmount balances goal / ((days : ℚ) / 30))

/-- JavaScript double restricted to the values the pacing computation
can produce: a finite rational, NaN, or a signed infinity. -/
inductive JsNum where
  | fin : ℚ → JsNum
  | nan : JsNum
  | posInf : JsNum
  | negInf : JsNum
deriving Repr, DecidableEq

/-- IEEE division: a nonzero finite numerator over zero gives a signed
infinity, zero over zero gives NaN. -/
def jsDiv : JsNum → JsNum → JsNum
  | JsNum.fin a, JsNum.fin b =>
    if b = 0 then
      if a = 0 then JsNum.nan
      else if 0 < a then JsNum.posInf else JsNum.negInf
    else JsNum.fin (a / b)
  | JsNum.nan, _ => JsNum.nan
  | _, JsNum.nan => JsNum.nan
  | JsNum.posInf, JsNum.posInf => JsNum.nan
  | JsNum.posInf, JsNum.negInf => JsNum.nan
  | JsNum.negInf, JsNum.posInf => JsNum.nan
  | JsNum.negInf, JsNum.negInf => JsNum.nan
  | JsNum.posInf, JsNum.fin b => if 0 ≤ b then JsNum.posInf else JsNum.negInf
  | JsNum.negInf, JsNum.fin b => if 0 ≤ b then JsNum.negInf else JsNum.posInf
  | JsNum.fin _, JsNum.posInf => JsNum.fin 0
  | JsNum.fin _, JsNum.negInf => JsNum.fin 0

/-- IEEE multiplication on the four-point type; an infinity times zero
is NaN. -/
def jsMul : JsNum → JsNum → JsNum
  | JsNum.nan, _ => JsNum.nan
  | _, JsNum.nan => JsNum.nan
  | JsNum.posInf, JsNum.posInf => JsNum.posInf
  | JsNum.posInf, JsNum.negInf => JsNum.negInf
  | JsNum.negInf, JsNum.posInf => JsNum.negInf
  | JsNum.negInf, JsNum.negInf => JsNum.posInf
  | JsNum.posInf, JsNum.fin b =>
    if b = 0 then JsNum.nan else if 0 < b then JsNum.posInf else JsNum.negInf
  | JsNum.fin a, JsNum.posInf =>
    if a = 0 then JsNum.nan else if 0 < a then JsNum.posInf else JsNum.negInf
  | JsNum.negInf, JsNum.fin b =>
    if b = 0 then JsNum.nan else if 0 < b then JsNum.negInf else JsNum.posInf
  | JsNum.fin a, JsNum.negInf =>
    if a = 0 then JsNum.nan else if 0 < a then JsNum.negInf else JsNum.posInf
  | JsNum.fin a, JsNum.fin b => JsNum.fin (a * b)

/-- IEEE subtraction on the four-point type. -/
def jsSub : JsNum → JsNum → JsNum
  | JsNum.nan, _ => JsNum.nan
  | _, JsNum.nan => JsNum.nan
  | JsNum.posInf, JsNum.posInf => JsNum.nan
  | JsNum.posInf, _ => JsNum.posInf
  | JsNum.negInf, JsNum.negInf => JsNum.nan
  | JsNum.negInf, _ => JsNum.negInf
  | JsNum.fin _, JsNum.posInf => JsNum.negInf
  | JsNum.fin _, JsNum.negInf => JsNum.posInf
  | JsNum.fin a, JsNum.fin b => JsNum.fin (a - b)

/-- IEEE greater-or-equal: any comparison with NaN is false. -/
def jsGe : JsNum → JsNum → Bool
  | JsNum.nan, _ => false
  | _, JsNum.nan => false
  | JsNum.posInf, _ => true
  | JsNum.negInf, JsNum.negInf => true
  | JsNum.negInf, _ => false
  | JsNum.fin _, JsNum.negInf => true
  | JsNum.fin _, JsNum.posInf => false
  | JsNum.fin a, JsNum.fin b => decide (b ≤ a)

/-- isOnTrack: null without a target date, otherwise the comparison of
actual progress against expected linear progress minus the five-point
tolerance, carried out in IEEE arithmetic because totalDays may be
zero. -/
def isOnTrack (balances : List (String × ℚ)) (goal : Goal)
    (today : ℚ) : Option Bool :=
  match goal.target_date with
  | none => none
  | some td =>
    match getDaysRemaining goal today with
    | none => none
    | some days =>
      let totalDays : ℚ := td - goal.created_at
      let elapsed : ℚ := totalDays - (days : ℚ)
      let expectedProgress :=
        jsMul (jsDiv (JsNum.fin elapsed) (JsNum.fin totalDays))
          (JsNum.fin 100)
      let actualProgress := getProgress balances goal
      some (jsGe (JsNum.fin actualProgress)
        (jsSub expectedProgress (JsNum.fin 5)))

/-- activeGoals: the goals not yet completed. -/
def activeGoals (goals : List Goal) : List Goal :=
  goals.filter (fun g => !g.completed)

/-- totalSaved: reduce over the active goals of current amount minus
starting balance. -/
def totalSaved (goals : List Goal) (balances : List (String × ℚ)) : ℚ :=
  (activeGoals goals).foldl
    (fun sum g => sum + (getCurrentAmount balances g - g.starting_balance)) 0

/-- totalTarget: reduce over the active goals of target amount minus
starting balance. -/
def totalTarget (goals : List Goal) : ℚ :=
  (activeGoals goals).foldl
    (fun sum g => sum + (g.target_amount - g.starting_balance)) 0

/-! Concrete fixtures used by the witnesses below. -/

/-- Snapshot account with a 4000 balance. -/
def wAcct1 : Account := ⟨"a1", "Checking", 4000, none⟩

/-- Snapshot account with a 3000 balance. -/
def wAcct2 : Account := ⟨"a2", "Savings", 3000, none⟩

/-- Two-account snapshot; no account has id zz. -/
def wAccounts : List Account := [wAcct1, wAcct2]

/-- Three allocation rules: a 50 percent rule, an oversized fixed rule,
and a rule on a missing account. -/
def wAllocs : List AccountAllocation :=
  [⟨"a1", AllocationType.percentage, 50⟩,
   ⟨"a2", AllocationType.fixed, 10000⟩,
   ⟨"zz", AllocationType.percentage, 100⟩]

/-- Goal carrying the three rules of wAllocs. -/
def wGoalAlloc : Goal :=
  ⟨"g1", "House", 10000, none, some wAllocs, 0, "i", "c",
   true, false, none, 0, 0⟩

/-- Goal with no allocation rules and no target date. -/
def wGoalA : Goal :=
  ⟨"ga", "A", 10000, none, none, 0, "i", "c", true, false, none, 0, 0⟩

/-- Balance map giving wGoalA a current amount of 2000. -/
def wBalA : List (String × ℚ) := [("ga", 2000)]

/-- Goal created at day 0 with target date at day 90 and target 100. -/
def wGoalC : Goal :=
  ⟨"gc", "C", 100, some 90, none, 0, "i", "c", true, false, none, 0, 0⟩

/-- Balance map giving wGoalC a current amount of 40, hence 40 percent
progress. -/
def wBalC : List (String × ℚ) := [("gc", 40)]

/-- Goal whose target date equals its creation date (day 50). -/
def wGoalD : Goal :=
  ⟨"gd", "D", 100, some 50, none, 0, "i", "c", true, false, none, 50, 0⟩

/-- Goal whose only allocation rule references a missing account. -/
def wGoalMiss : Goal :=
  ⟨"gm", "M", 100, none, some [⟨"zz", AllocationType.fixed, 5⟩], 42,
   "i", "c", true, false, none, 0, 0⟩

/-- Goal in manual tracking mode with starting balance 123. -/
def wGoalManual : Goal :=
  ⟨"gq", "Q", 100, none, none, 123, "i", "c", true, false, none, 0, 0⟩

/-- Goal with starting balance 7, target 10, and one allocation rule on
a missing account, so its resolved balance is exactly zero. -/
def wGoalZ : Goal :=
  ⟨"gz", "Z", 10, none, some [⟨"zz", AllocationType.percentage, 100⟩], 7,
   "i", "c", true, false, none, 0, 0⟩

/-- Active goal whose starting balance exceeds its target. -/
def wGoalNeg : Goal :=
  ⟨"gn", "N", 0, none, none, 10, "i", "c", true, false, none, 0, 0⟩

/-! Helper lemmas about the resolver fold. -/

theorem allocStep_eq (accounts : List Account) (total : ℚ)
    (alloc : AccountAllocation) :
    allocStep accounts total alloc =
      total + allocContribution accounts alloc := by
  unfold allocStep allocContribution
  cases accountFind accounts alloc.account_id with
  | none => simp
  | some account => cases alloc.allocation_type <;> simp

theorem foldl_allocStep_eq_sum (accounts : List Account)
    (allocs : List AccountAllocation) (init : ℚ) :
    allocs.foldl (allocStep accounts) init =
      init + (allocs.map (allocContribution accounts)).sum := by
  induction allocs generalizing init with
  | nil => simp
  | cons a l ih =>
    simp only [List.foldl_cons, List.map_cons, List.sum_cons,
      allocStep_eq, ih]
    ring

theorem sum_map_filter_of_zero {α : Type} (p : α → Bool) (f : α → ℚ)
    (l : List α) (hz : ∀ a ∈ l, p a = false → f a = 0) :
    (l.map f).sum = ((l.filter p).map f).sum := by
  induction l with
  | nil => simp
  | cons a l ih =>
    have ih2 := ih (fun b hb hpb => hz b (List.mem_cons_of_mem a hb) hpb)
    by_cases hp : p a
    · simp [List.filter_cons, hp, ih2]
    · have ha : f a = 0 :=
        hz a (List.mem_cons_self a l) (Bool.not_eq_true _ ▸ hp)

      simp [List.filter_cons, hp, ih2, ha]

theorem resolve_eq_sum (goal : Goal) (accounts : List Account)
    (allocs : List AccountAllocation)
    (h : goal.allocations = some allocs) (hne : allocs ≠ []) :
    resolveCurrentAmount goal accounts =
      (allocs.map (allocContribution accounts)).sum := by
  unfold resolveCurrentAmount
  rw [h]
  simp only [List.length_pos.mpr hne, if_pos]
  rw [foldl_allocStep_eq_sum]
  ring

theorem foldl_add_eq_sum {α : Type} (f : α → ℚ) (l : List α) (init : ℚ) :
    l.foldl (fun s a => s + f a) init = init + (l.map f).sum := by
  induction l generalizing init with
  | nil => simp
  | cons a l ih =>
    simp only [List.foldl_cons, List.map_cons, List.sum_cons, ih]
    ring

/-- C1: for a goal with a non-empty allocation list the resolved current
amount is the sum, over the rules whose referenced account exists in the
snapshot, of the per-rule contribution; that contribution is
balance times value over one hundred for a percentage rule and the
minimum of the value and the balance for a fixed rule, so a fixed rule
never contributes more than the balance of its account. -/
theorem C1_resolver_sum (goal : Goal) (accounts : List Account)
    (allocs : List AccountAllocation)
    (h : goal.allocations = some allocs) (hne : allocs ≠ []) :
    resolveCurrentAmount goal accounts =
      ((allocs.filter
        (fun a => (accountFind accounts a.account_id).isSome)).map
        (allocContribution accounts)).sum ∧
    (∀ a ∈ allocs, ∀ acct, accountFind accounts a.account_id = some acct →
      allocContribution accounts a =
        (match a.allocation_type with
         | AllocationType.percentage =>
             acct.balance * a.allocation_value / 100
         | AllocationType.fixed => min a.allocation_value acct.balance)) ∧
    (∀ a ∈ allocs, a.allocation_type = AllocationType.fixed →
      ∀ acct, accountFind accounts a.account_id = some acct →
        allocContribution accounts a ≤ acct.balance) := by
  refine ⟨?_, ?_, ?_⟩
  · rw [resolve_eq_sum goal accounts allocs h hne]
    refine sum_map_filter_of_zero _ _ _ ?_
    intro a _ hfalse
    unfold allocContribution
    rcases hfind : accountFind accounts a.account_id with _ | acct
    · simp
    · rw [hfind] at hfalse
      simp at hfalse
  · intro a _ acct hacct
    unfold allocContribution
    rw [hacct]
  · intro a _ hfix acct hacct
    unfold allocContribution
    rw [hacct, hfix]
    exact min_le_right _ _

/-- Witness for C1 at the three-rule fixture: the resolver yields
2000 + 3000 over the two present accounts, the missing rule filtered
away. -/
theorem C1_resolver_sum_witness :
    (wGoalAlloc.allocations = some wAllocs ∧ wAllocs ≠ []) ∧
    resolveCurrentAmount wGoalAlloc wAccounts =
      ((wAllocs.filter
        (fun a => (accountFind wAccounts a.account_id).isSome)).map
        (allocContribution wAccounts)).sum ∧
    resolveCurrentAmount wGoalAlloc wAccounts = 5000 := by
  refine ⟨⟨rfl, by decide⟩, ?_, ?_⟩
  · exact (C1_resolver_sum wGoalAlloc wAccounts wAllocs rfl (by decide)).1
  · simp +decide [resolveCurrentAmount, wGoalAlloc, wAllocs, allocStep,
      accountFind, wAccounts, wAcct1, wAcct2, min_def, List.find?]
    norm_num

/-- C6: an allocation rule whose referenced account is absent from the
snapshot contributes exactly zero, and the resolved amount is the sum
over only the rules whose account is present; the resolver is a total
function, so no error is raised. -/
theorem C6_missing_account_zero (goal : Goal) (accounts : List Account)
    (allocs : List AccountAllocation)
    (h : goal.allocations = some allocs) (hne : allocs ≠ [])
    (alloc : AccountAllocation) (_hmem : alloc ∈ allocs)
    (hmiss : accountFind accounts alloc.account_id = none) :
    allocContribution accounts alloc = 0 ∧
    resolveCurrentAmount goal accounts =
      ((allocs.filter
        (fun a => (accountFind accounts a.account_id).isSome)).map
        (allocContribution accounts)).sum := by
  constructor
  · unfold allocContribution
    rw [hmiss]
  · rw [resolve_eq_sum goal accounts allocs h hne]
    refine sum_map_filter_of_zero _ _ _ ?_
    intro a _ hfalse
    unfold allocContribution
    rcases hfind : accountFind accounts a.account_id with _ | acct
    · simp
    · rw [hfind] at hfalse
      simp at hfalse

/-- Witness for C6 at a goal whose single rule points at the missing
account zz: the contribution is zero and the resolved amount is the
empty sum, zero. -/
theorem C6_missing_account_zero_witness :
    (wGoalMiss.allocations =
        some [⟨"zz", AllocationType.fixed, 5⟩] ∧
      accountFind wAccounts "zz" = none) ∧
    allocContribution wAccounts ⟨"zz", AllocationType.fixed, 5⟩ = 0 ∧
    resolveCurrentAmount wGoalMiss wAccounts = 0 := by
  refine ⟨⟨rfl, by decide⟩, ?_, ?_⟩
  · exact (C6_missing_account_zero wGoalMiss wAccounts _ rfl (by decide)
      ⟨"zz", AllocationType.fixed, 5⟩ (by decide) (by decide)).1
  · simp +decide [resolveCurrentAmount, wGoalMiss, allocStep, accountFind,
      wAccounts, wAcct1, wAcct2, min_def, List.find?]

/-- C8: with an empty or absent allocation list the resolver returns the
starting balance unchanged (manual tracking mode). -/
theorem C8_manual_mode (goal : Goal) (accounts : List Account)
    (h : goal.allocations = none ∨ goal.allocations = some []) :
    resolveCurrentAmount goal accounts = goal.starting_balance := by
  rcases h with h | h <;> simp [resolveCurrentAmount, h]

/-- Witness for C8 at the manual goal: the resolver returns its starting
balance 123. -/
theorem C8_manual_mode_witness :
    (wGoalManual.allocations = none ∨
      wGoalManual.allocations = some []) ∧
    resolveCurrentAmount wGoalManual wAccounts = wGoalManual.starting_balance ∧
    resolveCurrentAmount wGoalManual wAccounts = 123 := by
  refine ⟨Or.inl rfl, C8_manual_mode wGoalManual wAccounts (Or.inl rfl), ?_⟩
  norm_num [resolveCurrentAmount, wGoalManual]

/-- C2: the progress calculator returns one hundred when the needed
amount (target minus starting balance) is nonpositive, and otherwise the
saved fraction scaled to one hundred and clamped between zero and one
hundred; consequently the result always lies between zero and one
hundred. -/
theorem C2_progress_bounds (balances : List (String × ℚ)) (goal : Goal) :
    (goal.target_amount - goal.starting_balance ≤ 0 →
      getProgress balances goal = 100) ∧
    (0 < goal.target_amount - goal.starting_balance →
      getProgress balances goal =
        min 100 (max 0
          ((jsOr (mapGet balances goal.id) 0 - goal.starting_balance) /
            (goal.target_amount - goal.starting_balance) * 100))) ∧
    0 ≤ getProgress balances goal ∧ getProgress balances goal ≤ 100 := by
  refine ⟨?_, ?_, ?_, ?_⟩
  · intro h
    simp [getProgress, h]
  · intro h
    have h2 : ¬(goal.target_amount - goal.starting_balance ≤ 0) := not_le.mpr h
    simp [getProgress, h2]
  · by_cases h : goal.target_amount - goal.starting_balance ≤ 0
    · simp [getProgress, h]
    · simp only [getProgress, h, if_false]
      exact le_min (by norm_num) (le_max_left 0 _)
  · by_cases h : goal.target_amount - goal.starting_balance ≤ 0
    · simp [getProgress, h]
    · simp only [getProgress, h, if_false]
      exact min_le_left _ _

/-- Witness for C2 at scenario A of the spec: target 10000, starting 0,
current 2000, hence progress 20, inside the unit-interval bounds. -/
theorem C2_progress_bounds_witness :
    0 < wGoalA.target_amount - wGoalA.starting_balance ∧
    getProgress wBalA wGoalA =
      min 100 (max 0
        ((jsOr (mapGet wBalA wGoalA.id) 0 - wGoalA.starting_balance) /
          (wGoalA.target_amount - wGoalA.starting_balance) * 100)) ∧
    getProgress wBalA wGoalA = 20 ∧
    0 ≤ getProgress wBalA wGoalA ∧ getProgress wBalA wGoalA ≤ 100 := by
  refine ⟨by norm_num [wGoalA],
    (C2_progress_bounds wBalA wGoalA).2.1 (by norm_num [wGoalA]), ?_,
    (C2_progress_bounds wBalA wGoalA).2.2.1,
    (C2_progress_bounds wBalA wGoalA).2.2.2⟩
  simp +decide [getProgress, wBalA, wGoalA, mapGet, jsOr, List.find?,
    min_def, max_def]
  norm_num

/-- C3: with a target date and a strictly positive total window from
creation to target, isOnTrack is the comparison of actual progress
against expected linear progress minus the five-point tolerance, where
expected progress is elapsed over total days times one hundred and
elapsed is total days minus the remaining days. -/
theorem C3_ontrack_formula (balances : List (String × ℚ)) (goal : Goal)
    (today td : ℚ) (h : goal.target_date = some td)
    (hpos : 0 < td - goal.created_at) :
    isOnTrack balances goal today =
      some (decide
        ((td - goal.created_at - ((⌈td - today⌉ : ℤ) : ℚ)) /
            (td - goal.created_at) * 100 - 5 ≤
          getProgress balances goal)) := by
  have hne : td - goal.created_at ≠ 0 := ne_of_gt hpos
  unfold isOnTrack getDaysRemaining
  rw [h]
  simp [jsDiv, jsMul, jsSub, jsGe, hne]

/-- Witness for C3 at scenario C of the spec: a goal created at day 0
with target date at day 90 seen at day 60, at forty percent progress;
expected progress is two thirds of one hundred, so the goal is off
track. -/
theorem C3_ontrack_formula_witness :
    (wGoalC.target_date = some 90 ∧ (0:ℚ) < 90 - wGoalC.created_at) ∧
    isOnTrack wBalC wGoalC 60 = some false := by
  refine ⟨⟨rfl, by norm_num [wGoalC]⟩, ?_⟩
  rw [C3_ontrack_formula wBalC wGoalC 60 90 rfl (by norm_num [wGoalC])]
  norm_num [wGoalC]
  norm_num [getProgress, wBalC, wGoalC, mapGet, jsOr, List.find?,
    min_def, max_def]

/-- Comparison of a finite actual progress against the zero-denominator
pipeline: the IEEE pipeline collapses to a definite boolean. -/
theorem jsGe_zero_den (actual : ℚ) (k : ℤ) :
    jsGe (JsNum.fin actual)
      (jsSub (jsMul (jsDiv (JsNum.fin (-(k:ℚ))) (JsNum.fin 0))
        (JsNum.fin 100)) (JsNum.fin 5)) = decide (0 < k) := by
  rcases lt_trichotomy k 0 with hd | hd | hd
  · have hpos : (0:ℚ) < -(k:ℚ) := by
      have hc : (k:ℚ) < 0 := by exact_mod_cast hd
      linarith
    have hne : -(k:ℚ) ≠ 0 := ne_of_gt hpos
    have h3 : ¬(0 < k) := not_lt.mpr (le_of_lt hd)
    simp [jsDiv, jsMul, jsSub, jsGe, hne, hpos, h3]
  · simp [jsDiv, jsMul, jsSub, jsGe, hd]
  · have hneg : -(k:ℚ) < 0 := by
      have hc : (0:ℚ) < (k:ℚ) := by exact_mod_cast hd
      linarith
    have hne : -(k:ℚ) ≠ 0 := ne_of_lt hneg
    have hnp : ¬(0:ℚ) < -(k:ℚ) := not_lt.mpr (le_of_lt hneg)
    simp [jsDiv, jsMul, jsSub, jsGe, hne, hnp, hd]

/-- C4: when the target date equals the creation date the total window
is zero and the naive expected-progress formula divides by zero; in
IEEE arithmetic the comparison against the resulting NaN or infinity
still yields a definite boolean, namely true exactly when the ceiled
number of remaining days is strictly positive, so isOnTrack never
returns NaN or an infinity. -/
theorem C4_zero_window_defined (balances : List (String × ℚ))
    (goal : Goal) (today td : ℚ) (h : goal.target_date = some td)
    (h0 : goal.created_at = td) :
    isOnTrack balances goal today =
      some (decide (0 < ⌈td - today⌉)) := by
  have hred : isOnTrack balances goal today =
      some (jsGe (JsNum.fin (getProgress balances goal))
        (jsSub (jsMul (jsDiv
          (JsNum.fin (td - goal.created_at - ((⌈td - today⌉ : ℤ) : ℚ)))
          (JsNum.fin (td - goal.created_at))) (JsNum.fin 100))
          (JsNum.fin 5))) := by
    unfold isOnTrack getDaysRemaining
    rw [h]
  rw [hred, h0, sub_self, zero_sub]
  exact congrArg some (jsGe_zero_den _ _)

/-- Witness for C4 at scenario D of the spec: target date equal to the
creation date, viewed on that very day; the result is the definite
boolean false, not NaN. -/
theorem C4_zero_window_defined_witness :
    (wGoalD.target_date = some 50 ∧ wGoalD.created_at = 50) ∧
    isOnTrack [] wGoalD 50 = some false := by
  refine ⟨⟨rfl, rfl⟩, ?_⟩
  rw [C4_zero_window_defined [] wGoalD 50 50 rfl rfl]
  norm_num

/-- C5: the aggregator sums over exactly the goals with completed set to
false, totalSaved adding current amount minus starting balance and
totalTarget adding target amount minus starting balance, and neither sum
is clamped: both can be negative, witnessed by a goal whose starting
balance exceeds its target. -/
theorem C5_aggregate_sums (goals : List Goal)
    (balances : List (String × ℚ)) :
    totalSaved goals balances =
      ((goals.filter (fun g => !g.completed)).map
        (fun g => getCurrentAmount balances g - g.starting_balance)).sum ∧
    totalTarget goals =
      ((goals.filter (fun g => !g.completed)).map
        (fun g => g.target_amount - g.starting_balance)).sum ∧
    ∃ gs bs, totalSaved gs bs < 0 ∧ totalTarget gs < 0 := by
  refine ⟨?_, ?_, ⟨[wGoalNeg], [("gn", 5)], ?_, ?_⟩⟩
  · simp [totalSaved, activeGoals, foldl_add_eq_sum]
  · simp [totalTarget, activeGoals, foldl_add_eq_sum]
  · norm_num [totalSaved, activeGoals, wGoalNeg, getCurrentAmount,
      mapGet, jsOr, List.find?, List.filter]
  · norm_num [totalTarget, activeGoals, wGoalNeg, List.filter]

/-- C7: monthlyNeeded is null exactly when there is no target date or
the ceiled days remaining are nonpositive, and otherwise equals the
remaining amount divided by days remaining over thirty. -/
theorem C7_monthly_needed (balances : List (String × ℚ)) (goal : Goal)
    (today : ℚ) :
    (getMonthlyNeeded balances goal today = none ↔
      goal.target_date = none ∨
        ∃ td, goal.target_date = some td ∧ ⌈td - today⌉ ≤ 0) ∧
    (∀ td, goal.target_date = some td → 0 < ⌈td - today⌉ →
      getMonthlyNeeded balances goal today =
        some (getRemainingAmount balances goal /
          (((⌈td - today⌉ : ℤ) : ℚ) / 30))) := by
  constructor
  · cases htd : goal.target_date with
    | none => simp [getMonthlyNeeded, getDaysRemaining, htd]
    | some td =>
      by_cases hle : ⌈td - today⌉ ≤ 0
      · simp [getMonthlyNeeded, getDaysRemaining, htd, hle]
      · simp [getMonthlyNeeded, getDaysRemaining, htd, hle]
  · intro td htd hpos
    simp [getMonthlyNeeded, getDaysRemaining, htd, not_le.mpr hpos]

/-- Witness for C7 at the day-90 goal viewed on day 60: thirty days
remain, so the monthly contribution is the remaining 60 over one
thirty-day month, 60. -/
theorem C7_monthly_needed_witness :
    (wGoalC.target_date = some 90 ∧ 0 < ⌈(90:ℚ) - 60⌉) ∧
    getMonthlyNeeded wBalC wGoalC 60 =
      some (getRemainingAmount wBalC wGoalC /
        (((⌈(90:ℚ) - 60⌉ : ℤ) : ℚ) / 30)) ∧
    getMonthlyNeeded wBalC wGoalC 60 = some 60 := by
  have hpos : 0 < ⌈(90:ℚ) - 60⌉ := by norm_num
  refine ⟨⟨rfl, hpos⟩,
    (C7_monthly_needed wBalC wGoalC 60).2 90 rfl hpos, ?_⟩
  norm_num [getMonthlyNeeded, getDaysRemaining, getRemainingAmount,
    getCurrentAmount, wGoalC, wBalC, mapGet, jsOr, List.find?, max_def]

/-- C9: without a target date the pacing analyzer returns null for days
remaining, monthly needed, and on-track alike. -/
theorem C9_no_target_date (balances : List (String × ℚ)) (goal : Goal)
    (today : ℚ) (h : goal.target_date = none) :
    getDaysRemaining goal today = none ∧
    getMonthlyNeeded balances goal today = none ∧
    isOnTrack balances goal today = none := by
  refine ⟨?_, ?_, ?_⟩ <;>
    simp [getDaysRemaining, getMonthlyNeeded, isOnTrack, h]

/-- Witness for C9 at the dateless goal wGoalA: all three pacing fields
are null. -/
theorem C9_no_target_date_witness :
    wGoalA.target_date = none ∧
    (getDaysRemaining wGoalA 0 = none ∧
      getMonthlyNeeded wBalA wGoalA 0 = none ∧
      isOnTrack wBalA wGoalA 0 = none) :=
  ⟨rfl, C9_no_target_date wBalA wGoalA 0 rfl⟩

/-- C10: when the stored resolved balance of a goal is exactly zero the
or-operator in getCurrentAmount treats it as falsy and falls back to the
starting balance, and the remaining amount is then computed from the
starting balance instead of the true zero balance. -/
theorem C10_zero_resolved_fallback (balances : List (String × ℚ))
    (goal : Goal) (h : mapGet balances goal.id = some 0) :
    getCurrentAmount balances goal = goal.starting_balance ∧
    getRemainingAmount balances goal =
      max 0 (goal.target_amount - goal.starting_balance) := by
  have h1 : getCurrentAmount balances goal = goal.starting_balance := by
    simp [getCurrentAmount, jsOr, h]
  exact ⟨h1, by simp [getRemainingAmount, h1]⟩

/-- Witness for C10 at a goal whose single rule points at a missing
account: the resolver stores zero, yet the accessor reports the starting
balance 7 and the remaining amount 3 out of the target 10. -/
theorem C10_zero_resolved_fallback_witness :
    mapGet (calculateBalances [wGoalZ] wAccounts) wGoalZ.id = some 0 ∧
    getCurrentAmount (calculateBalances [wGoalZ] wAccounts) wGoalZ = 7 ∧
    getRemainingAmount (calculateBalances [wGoalZ] wAccounts) wGoalZ = 3 := by
  have h : mapGet (calculateBalances [wGoalZ] wAccounts) wGoalZ.id =
      some 0 := by
    simp +decide [mapGet, calculateBalances, resolveCurrentAmount, wGoalZ,
      allocStep, accountFind, wAccounts, wAcct1, wAcct2, List.find?]
  have hc := C10_zero_resolved_fallback
    (calculateBalances [wGoalZ] wAccounts) wGoalZ h
  refine ⟨h, ?_, ?_⟩
  · rw [hc.1]
    norm_num [wGoalZ]
  · rw [hc.2]
    norm_num [wGoalZ, max_def]

end TreelineGoals
